import Mathlib

/-!
# Verification of the Sparkify ETL transforms (src/etl.py)

A shallow embedding of the transformation logic of `etl.py`: datasets are
Lean lists of row structures, Spark operations (`dropDuplicates`, `filter`,
`select`/`selectExpr`, `withColumn`, left `join`, `monotonically_increasing_id`)
become explicit list functions, and the per-statement name resolution of
`process_log_data` is modelled as a small interpreter over the statement
sequence of the function body.
-/

set_option autoImplicit false

namespace ETL

/-! ## Calendar arithmetic

Spark's `year`, `month`, `dayofmonth`, `hour`, `weekofyear`, `dayofweek`
applied to a timestamp.  Timestamps are epoch milliseconds (`Int`), pinned
to UTC; the civil-calendar decomposition is the standard era-based
algorithm on the epoch day number. -/

def msPerDay : Int := 86400000

def epochDay (t : Int) : Int := t.fdiv msPerDay

/-- Convert a day number (days since 1970-01-01) to (year, month, day). -/
def civilFromDays (z : Int) : Int × Int × Int :=
  let z' := z + 719468
  let era := z'.fdiv 146097
  let doe := z' - era * 146097
  let yoe := (doe - doe.fdiv 1460 + doe.fdiv 36524 - doe.fdiv 146096).fdiv 365
  let y := yoe + era * 400
  let doy := doe - (365 * yoe + yoe.fdiv 4 - yoe.fdiv 100)
  let mp := (5 * doy + 2).fdiv 153
  let d := doy - (153 * mp + 2).fdiv 5 + 1
  let m := mp + (if mp < 10 then 3 else (-9 : Int))
  (y + (if m ≤ 2 then 1 else 0), m, d)

/-- Convert a civil date (year, month, day) to a day number since 1970-01-01. -/
def daysFromCivil (y m d : Int) : Int :=
  let y' := y - (if m ≤ 2 then 1 else 0)
  let era := y'.fdiv 400
  let yoe := y' - era * 400
  let mp := (m + 9).emod 12
  let doy := (153 * mp + 2).fdiv 5 + d - 1
  let doe := yoe * 365 + yoe.fdiv 4 - yoe.fdiv 100 + doy
  era * 146097 + doe - 719468

/-- Spark `year(timestamp)`. -/
def yearOf (t : Int) : Int := (civilFromDays (epochDay t)).1

/-- Spark `month(timestamp)`. -/
def monthOf (t : Int) : Int := (civilFromDays (epochDay t)).2.1

/-- Spark `dayofmonth(timestamp)`. -/
def dayOf (t : Int) : Int := (civilFromDays (epochDay t)).2.2

/-- Spark `hour(timestamp)` (UTC). -/
def hourOf (t : Int) : Int := (t.fdiv 3600000).emod 24

/-- Spark `dayofweek(timestamp)`: 1 = Sunday .. 7 = Saturday. -/
def weekdayOf (t : Int) : Int := (epochDay t + 4).emod 7 + 1

/-- ISO weekday: 1 = Monday .. 7 = Sunday. -/
def isoWeekdayOf (t : Int) : Int := (epochDay t + 3).emod 7 + 1

/-- Spark `weekofyear(timestamp)`: ISO week number, computed as the number of
the week of the Thursday of the current ISO week within that Thursday's year. -/
def weekOf (t : Int) : Int :=
  let d := epochDay t
  let wd := (d + 3).emod 7 + 1
  let thursday := d + (4 - wd)
  let y := (civilFromDays thursday).1
  (thursday - daysFromCivil y 1 1).fdiv 7 + 1

/-- Model of the undefined helper used for the `start_time` column.
Modelled from the spec: the `to_date` helper called by `get_datetime` is
undefined in the source; the spec describes the intent as date-level
truncation of the event timestamp, so we truncate the epoch-millisecond
instant to midnight of its UTC day. -/
def startTimeOf (t : Int) : Int := msPerDay * epochDay t

/-! ## Generic dataset operations -/

/-- Worker for `dropDups`: `seen` accumulates the rows already emitted. -/
def dropDupsAux {α : Type} [DecidableEq α] (seen : List α) : List α → List α
  | [] => []
  | a :: as =>
    if a ∈ seen then dropDupsAux seen as
    else a :: dropDupsAux (a :: seen) as

/-- Spark `Dataset.dropDuplicates()`: remove exact-duplicate rows, keeping
the first occurrence of each row. -/
def dropDups {α : Type} [DecidableEq α] (l : List α) : List α :=
  dropDupsAux [] l

/-- Worker for `dedupByKey`: `seen` accumulates the keys already emitted. -/
def dedupByKeyAux {α κ : Type} [DecidableEq κ] (key : α → κ) (seen : List κ) :
    List α → List α
  | [] => []
  | a :: as =>
    if key a ∈ seen then dedupByKeyAux key seen as
    else a :: dedupByKeyAux key (key a :: seen) as

/-- Spark `Dataset.dropDuplicates([key])`: keep the first row for each
distinct key value. -/
def dedupByKey {α κ : Type} [DecidableEq κ] (key : α → κ) (l : List α) :
    List α :=
  dedupByKeyAux key [] l

theorem mem_dropDupsAux {α : Type} [DecidableEq α] {x : α} :
    ∀ {l seen : List α}, x ∈ dropDupsAux seen l ↔ x ∈ l ∧ x ∉ seen := by
  intro l
  induction l with
  | nil => intro seen; simp [dropDupsAux]
  | cons a as ih =>
    intro seen
    by_cases h : a ∈ seen
    · simp only [dropDupsAux, if_pos h, ih, List.mem_cons]
      constructor
      · tauto
      · rintro ⟨rfl | h1, h2⟩ <;> tauto
    · simp only [dropDupsAux, if_neg h, List.mem_cons, ih]
      by_cases hxa : x = a
      · subst hxa; tauto
      · tauto

theorem mem_dropDups {α : Type} [DecidableEq α] {x : α} {l : List α} :
    x ∈ dropDups l ↔ x ∈ l := by
  rw [dropDups, mem_dropDupsAux]
  simp

theorem dropDupsAux_nodup {α : Type} [DecidableEq α] :
    ∀ (l seen : List α), (dropDupsAux seen l).Nodup := by
  intro l
  induction l with
  | nil => intro seen; simp [dropDupsAux]
  | cons a as ih =>
    intro seen
    by_cases h : a ∈ seen
    · simpa [dropDupsAux, if_pos h] using ih seen
    · simp only [dropDupsAux, if_neg h, List.nodup_cons]
      refine ⟨fun hmem => ?_, ih _⟩
      rw [mem_dropDupsAux] at hmem
      exact hmem.2 (List.mem_cons_self _ _)

theorem dropDups_nodup {α : Type} [DecidableEq α] (l : List α) :
    (dropDups l).Nodup :=
  dropDupsAux_nodup l []

theorem dropDupsAux_eq_of_nodup {α : Type} [DecidableEq α] :
    ∀ {l seen : List α}, l.Nodup → (∀ x ∈ l, x ∉ seen) →
      dropDupsAux seen l = l := by
  intro l
  induction l with
  | nil => intro seen _ _; rfl
  | cons a as ih =>
    intro seen hnd hsub
    have ha : a ∉ seen := hsub a (List.mem_cons_self _ _)
    rw [List.nodup_cons] at hnd
    rw [dropDupsAux, if_neg ha]
    congr 1
    apply ih hnd.2
    intro x hx
    simp only [List.mem_cons]
    push_neg
    exact ⟨fun hxa => hnd.1 (hxa ▸ hx), hsub x (List.mem_cons_of_mem _ hx)⟩

theorem dropDups_eq_of_nodup {α : Type} [DecidableEq α] {l : List α}
    (h : l.Nodup) : dropDups l = l :=
  dropDupsAux_eq_of_nodup h (by simp)

theorem mem_dedupByKeyAux {α κ : Type} [DecidableEq κ] {key : α → κ} {x : α} :
    ∀ {l : List α} {seen : List κ},
      x ∈ dedupByKeyAux key seen l → x ∈ l ∧ key x ∉ seen := by
  intro l
  induction l with
  | nil => intro seen h; simp [dedupByKeyAux] at h
  | cons a as ih =>
    intro seen h
    by_cases hc : key a ∈ seen
    · rw [dedupByKeyAux, if_pos hc] at h
      have := ih h
      exact ⟨List.mem_cons_of_mem _ this.1, this.2⟩
    · rw [dedupByKeyAux, if_neg hc] at h
      rcases List.mem_cons.mp h with rfl | h
      · exact ⟨List.mem_cons_self _ _, hc⟩
      · have := ih h
        simp only [List.mem_cons] at this
        push_neg at this
        exact ⟨List.mem_cons_of_mem _ this.1, this.2.2⟩

theorem mem_of_mem_dedupByKey {α κ : Type} [DecidableEq κ] {key : α → κ}
    {x : α} {l : List α} (h : x ∈ dedupByKey key l) : x ∈ l :=
  (mem_dedupByKeyAux h).1

theorem countP_dedupByKeyAux {α κ : Type} [DecidableEq κ] (key : α → κ)
    (k : κ) :
    ∀ (l : List α) (seen : List κ),
      (dedupByKeyAux key seen l).countP (fun a => decide (key a = k)) ≤ 1 ∧
      (k ∈ seen →
        (dedupByKeyAux key seen l).countP (fun a => decide (key a = k)) = 0) := by
  intro l
  induction l with
  | nil => intro seen; simp [dedupByKeyAux]
  | cons a as ih =>
    intro seen
    by_cases h : key a ∈ seen
    · simpa only [dedupByKeyAux, if_pos h] using ih seen
    · simp only [dedupByKeyAux, if_neg h]
      constructor
      · rw [List.countP_cons]
        by_cases hk : key a = k
        · have h0 := (ih (key a :: seen)).2
            (List.mem_cons.mpr (Or.inl hk.symm))
          rw [h0]
          simp [hk]
        · rw [decide_eq_false_iff_not.mpr hk]
          simpa using (ih (key a :: seen)).1
      · intro hks
        have hak : ¬ key a = k := fun he => h (he ▸ hks)
        rw [List.countP_cons, decide_eq_false_iff_not.mpr hak,
            (ih (key a :: seen)).2 (List.mem_cons_of_mem _ hks)]
        simp

theorem countP_dedupByKey {α κ : Type} [DecidableEq κ] (key : α → κ) (k : κ)
    (l : List α) :
    (dedupByKey key l).countP (fun a => decide (key a = k)) ≤ 1 :=
  (countP_dedupByKeyAux key k l []).1

/-! ## Declared schemas

`SparkType` and `SField` model `pyspark.sql.types` declarations; the two
schema lists transcribe `song_schema` and `log_schema` from the source,
in order, with each field's (name, type, nullable) triple. -/

inductive SparkType where
  | StringType
  | IntegerType
  | DoubleType
deriving DecidableEq

structure SField where
  name : String
  dtype : SparkType
  nullable : Bool
deriving DecidableEq

def song_schema : List SField :=
  [⟨"num_songs", .IntegerType, true⟩,
   ⟨"artist_id", .StringType, false⟩,
   ⟨"artist_latitude", .DoubleType, true⟩,
   ⟨"artist_longitude", .DoubleType, true⟩,
   ⟨"artist_location", .StringType, true⟩,
   ⟨"artist_name", .StringType, true⟩,
   ⟨"song_id", .StringType, true⟩,
   ⟨"title", .StringType, true⟩,
   ⟨"duration", .DoubleType, true⟩,
   ⟨"year", .IntegerType, false⟩]

def log_schema : List SField :=
  [⟨"artist", .StringType, true⟩,
   ⟨"auth", .StringType, true⟩,
   ⟨"firstName", .StringType, true⟩,
   ⟨"gender", .StringType, true⟩,
   ⟨"itemInSession", .IntegerType, true⟩,
   ⟨"lastName", .StringType, true⟩,
   ⟨"length", .DoubleType, true⟩,
   ⟨"level", .StringType, true⟩,
   ⟨"location", .StringType, true⟩,
   ⟨"method", .StringType, true⟩,
   ⟨"page", .StringType, true⟩,
   ⟨"registration", .StringType, true⟩,
   ⟨"sessionId", .StringType, true⟩,
   ⟨"song", .StringType, true⟩,
   ⟨"status", .StringType, true⟩,
   ⟨"ts", .IntegerType, false⟩,
   ⟨"userAgent", .StringType, true⟩,
   ⟨"userId", .StringType, true⟩]

def schemaField (s : List SField) (n : String) : Option SField :=
  s.find? (fun f => f.name == n)

/-- The values representable in a Spark `IntegerType` (32-bit) column. -/
abbrev int32Representable (v : Int) : Prop := -(2 ^ 31) ≤ v ∧ v < 2 ^ 31

/-- Lenient parsing of a JSON integer into a declared `IntegerType` field.
Modelled from the spec: malformed input not matching the schema is
"dropped or nulled per the engine's lenient-parsing policy", so a value
outside the 32-bit range parses to null rather than to its stated value. -/
def parseInt32 (v : Int) : Option Int :=
  if -(2 ^ 31) ≤ v ∧ v < 2 ^ 31 then some v else none

/-! ## Row types

One structure per dataset; nullable column values are `Option`s, `DoubleType`
columns are rationals (no floating-point arithmetic occurs in the pipeline:
doubles are only stored and compared). -/

structure SongRecord where
  num_songs : Option Int
  artist_id : Option String
  artist_latitude : Option Rat
  artist_longitude : Option Rat
  artist_location : Option String
  artist_name : Option String
  song_id : Option String
  title : Option String
  duration : Option Rat
  year : Option Int
deriving DecidableEq

structure LogRow where
  artist : Option String
  auth : Option String
  firstName : Option String
  gender : Option String
  itemInSession : Option Int
  lastName : Option String
  length : Option Rat
  level : Option String
  location : Option String
  method : Option String
  page : Option String
  registration : Option String
  sessionId : Option String
  song : Option String
  status : Option String
  ts : Option Int
  userAgent : Option String
  userId : Option String
deriving DecidableEq

/-- Row of `songs_table`: `select song_cols` in `process_song_data`. -/
structure SongsRow where
  song_id : Option String
  title : Option String
  artist_id : Option String
  year : Option Int
  duration : Option Rat
deriving DecidableEq

/-- Row of `artists_table`: `selectExpr artist_cols` in `process_song_data`. -/
structure ArtistRow where
  artist_id : Option String
  name : Option String
  location : Option String
  latitude : Option Rat
  longitude : Option Rat
deriving DecidableEq

/-- Row of `song_df`: `SELECT song_id, title, artist_id, artist_name FROM
song_data_df` (the temp view published by `process_song_data`). -/
structure SongView where
  song_id : Option String
  title : Option String
  artist_id : Option String
  artist_name : Option String
deriving DecidableEq

/-- Row of `users_table`: `selectExpr users_cols` in `process_log_data`. -/
structure UserRow where
  user_id : Option String
  first_name : Option String
  last_name : Option String
  gender : Option String
  level : Option String
deriving DecidableEq

/-- Row of `time_table`: `select time_cols` after the `withColumn` chain. -/
structure TimeRow where
  start_time : Option Int
  hour : Option Int
  day : Option Int
  week : Option Int
  month : Option Int
  year : Option Int
  weekday : Option Int
deriving DecidableEq

/-- Row of `songplays_table` before `monotonically_increasing_id` is added. -/
structure SongplayRow where
  start_time : Option Int
  user_id : Option String
  level : Option String
  song_id : Option String
  artist_id : Option String
  session_id : Option String
  location : Option String
  user_agent : Option String
  year : Option Int
  month : Option Int
deriving DecidableEq

/-! ## Song pipeline (`process_song_data`, src/etl.py lines 29-73) -/

/-- Validating load against `song_schema`.
Modelled from the spec: the JSON loader itself is the external engine;
per the spec, `artist_id` and `year` are declared non-nullable and "a
record missing either is a malformed-input condition the loader must
surface, not silently coerce", so the load fails on the first such record. -/
def loadSongData : List SongRecord → Except SongRecord (List SongRecord)
  | [] => .ok []
  | r :: rs =>
    if r.artist_id.isSome ∧ r.year.isSome then
      (loadSongData rs).map (r :: ·)
    else
      .error r

def songs_table (df : List SongRecord) : List SongsRow :=
  df.map (fun s => ⟨s.song_id, s.title, s.artist_id, s.year, s.duration⟩)

def artists_table (df : List SongRecord) : List ArtistRow :=
  df.map (fun s =>
    ⟨s.artist_id, s.artist_name, s.artist_location, s.artist_latitude,
     s.artist_longitude⟩)

/-- The temp view `song_data_df` as queried at src/etl.py line 147. -/
def song_data_view (df : List SongRecord) : List SongView :=
  df.map (fun s => ⟨s.song_id, s.title, s.artist_id, s.artist_name⟩)

/-- `process_song_data`: load with the explicit schema, drop exact-duplicate
rows, project the `songs` and `artists` tables, and publish the song view. -/
def process_song_data (raws : List SongRecord) :
    Except SongRecord (List SongsRow × List ArtistRow × List SongView) :=
  (loadSongData raws).map (fun loaded =>
    let df := dropDups loaded
    (songs_table df, artists_table df, song_data_view df))

/-! ## Log pipeline dataflow (`process_log_data`, src/etl.py lines 76-157)

The dataflow of the statements of `process_log_data`, as expressions over
the loaded dataset.  (The function body also has name-resolution defects —
`user_cols` vs `users_cols`, the undefined `to_date` and `day`, and a
malformed `hour` statement; those are modelled separately by the statement
interpreter below.  Here the `users` projection uses the `users_cols`
binding actually defined at line 116, and the `hour`/`day` columns carry
the column semantics the statements name.) -/

/-- Lines 110-113: `dropDuplicates()` then `filter(df.page == "NextSong")`.
A null `page` does not satisfy the equality predicate. -/
def filteredLogs (logs : List LogRow) : List LogRow :=
  (dropDups logs).filter (fun r => decide (r.page = some "NextSong"))

/-- Line 116/118: `selectExpr users_cols`. -/
def usersProj (r : LogRow) : UserRow :=
  ⟨r.userId, r.firstName, r.lastName, r.gender, r.level⟩

/-- Lines 116-118: `users_table = df.selectExpr(users_cols).dropDuplicates()`. -/
def users_table (logs : List LogRow) : List UserRow :=
  dropDups ((filteredLogs logs).map usersProj)

/-- The filtered log row extended with the derived columns of lines 124-137:
`timestamp` (epoch instant of `ts`, in milliseconds), `start_time`
(the modelled `to_date` truncation), and the date parts. -/
structure TimedLogRow where
  row : LogRow
  timestamp : Option Int
  start_time : Option Int
  hour : Option Int
  day : Option Int
  week : Option Int
  month : Option Int
  year : Option Int
  weekday : Option Int
deriving DecidableEq

/-- Lines 124-137: the `withColumn` chain over one row.  `get_timestamp`
maps `ts` to the instant `ts` milliseconds after the epoch; each date part
is computed from that instant; a null `ts` yields null derived columns. -/
def withTimeColumns (r : LogRow) : TimedLogRow :=
  { row := r
    timestamp := r.ts
    start_time := r.ts.map startTimeOf
    hour := r.ts.map hourOf
    day := r.ts.map dayOf
    week := r.ts.map weekOf
    month := r.ts.map monthOf
    year := r.ts.map yearOf
    weekday := r.ts.map weekdayOf }

def timedLogs (logs : List LogRow) : List TimedLogRow :=
  (filteredLogs logs).map withTimeColumns

/-- Line 139: `select time_cols`. -/
def timeRowOf (t : TimedLogRow) : TimeRow :=
  ⟨t.start_time, t.hour, t.day, t.week, t.month, t.year, t.weekday⟩

/-- Lines 139-141: `time_table = df.select(time_cols).dropDuplicates(["start_time"])`. -/
def time_table (logs : List LogRow) : List TimeRow :=
  dedupByKey TimeRow.start_time ((timedLogs logs).map timeRowOf)

/-- Line 150: the join condition
`[df.song == song_df.title, df.artist == song_df.artist_name]`.
Spark's `==` on columns is null-rejecting: a null on either side is no match. -/
def songMatches (l : LogRow) (s : SongView) : Bool :=
  match l.song, s.title with
  | some a, some b =>
    (a == b) &&
      (match l.artist, s.artist_name with
       | some c, some d => c == d
       | _, _ => false)
  | _, _ => false

/-- Line 154: `df.join(song_df, conditions, "left")`.  Each left row is
paired with every matching right row, or with `none` when no row matches. -/
def leftJoin (df : List TimedLogRow) (song_df : List SongView) :
    List (TimedLogRow × Option SongView) :=
  df.flatMap (fun l =>
    let ms := song_df.filter (fun s => songMatches l.row s)
    if ms.isEmpty then [(l, none)] else ms.map (fun s => (l, some s)))

/-- Line 152/154: `selectExpr songplays_cols` over the joined row. -/
def songplaysProj (p : TimedLogRow × Option SongView) : SongplayRow :=
  { start_time := p.1.start_time
    user_id := p.1.row.userId
    level := p.1.row.level
    song_id := p.2.bind SongView.song_id
    artist_id := p.2.bind SongView.artist_id
    session_id := p.1.row.sessionId
    location := p.1.row.location
    user_agent := p.1.row.userAgent
    year := p.1.year
    month := p.1.month }

/-- Line 154 before `withColumn("songplay_id", ...)`. -/
def songplaysRaw (logs : List LogRow) (song_df : List SongView) :
    List SongplayRow :=
  (leftJoin (timedLogs logs) song_df).map songplaysProj

/-- Line 154: `withColumn("songplay_id", monotonically_increasing_id())` —
in a single partition the generator assigns 0, 1, 2, ... in row order. -/
def songplays_table (logs : List LogRow) (song_df : List SongView) :
    List (Nat × SongplayRow) :=
  (songplaysRaw logs song_df).enum

/-! ## Statement-level name resolution of `process_log_data`

`process_log_data` can never reach its writes: line 118 references the
unbound `user_cols` (the binding at line 116 is `users_cols`), line 128's
UDF calls the undefined `to_date`, line 132 is a syntactically malformed
(unbalanced) expression, and line 133 calls the unimported `day`.  We model
the body as its statement sequence and interpret it: an assignment binds its
target after all eagerly-evaluated names resolve, a write emits an artifact,
and a malformed statement always fails (in CPython it already fails the
module at parse time). -/

inductive PyStmt where
  | assign (target : String) (uses : List String)
  | writeOut (artifact : String) (uses : List String)
  | malformed
deriving DecidableEq

/-- Interpret a statement list: returns the artifacts written before the
first failure, and the failure itself (the first unresolvable name, or
"SyntaxError" for a malformed statement), if any. -/
def runStmts (env : List String) (writes : List String) :
    List PyStmt → List String × Option String
  | [] => (writes, none)
  | PyStmt.assign t uses :: rest =>
    match uses.find? (fun n => ! env.contains n) with
    | some bad => (writes, some bad)
    | none => runStmts (t :: env) writes rest
  | PyStmt.writeOut a uses :: rest =>
    match uses.find? (fun n => ! env.contains n) with
    | some bad => (writes, some bad)
    | none => runStmts env (writes ++ [a]) rest
  | PyStmt.malformed :: _ => (writes, some "SyntaxError")

/-- The names bound at module level of src/etl.py (imports at lines 1-7,
the assignments at lines 10-15, and the module's function definitions). -/
def moduleEnv : List String :=
  ["configparser", "datetime", "os", "SparkSession", "udf", "col",
   "year", "month", "dayofmonth", "hour", "weekofyear", "date_format",
   "dayofweek", "monotonically_increasing_id",
   "StructType", "StructField", "StringType", "IntegerType", "DoubleType",
   "DateType", "TimestampType",
   "config", "create_spark_session", "process_song_data",
   "process_log_data", "main"]

/-- The environment at entry to `process_log_data`: the module names plus
the function's parameters. -/
def logEnv : List String := moduleEnv ++ ["spark", "input_data", "output_data"]

/-- The statement sequence of `process_log_data` (src/etl.py lines 84-157),
each with the names its evaluation resolves eagerly (names inside `lambda`
bodies are resolved only when the UDF runs, so they are not listed here). -/
def process_log_data_body : List PyStmt :=
  [.assign "log_data" ["input_data"],
   .assign "log_schema"
     ["StructType", "StructField", "StringType", "IntegerType", "DoubleType"],
   .assign "df" ["spark", "log_data", "log_schema"],
   .assign "df" ["df"],
   .assign "users_cols" [],
   .assign "users_table" ["df", "user_cols"],
   .writeOut "users" ["users_table", "output_data"],
   .assign "get_timestamp" ["udf", "TimestampType"],
   .assign "df" ["df", "get_timestamp", "col"],
   .assign "get_datetime" ["udf", "TimestampType"],
   .assign "df" ["df", "get_datetime", "col"],
   .malformed,
   .assign "df" ["df", "day", "col"],
   .assign "df" ["df", "weekofyear", "col"],
   .assign "df" ["df", "month", "col"],
   .assign "df" ["df", "year", "col"],
   .assign "df" ["df", "dayofweek", "col"],
   .assign "time_cols" [],
   .assign "time_table" ["df", "time_cols"],
   .writeOut "time" ["time_table", "output_data"],
   .assign "song_df" ["spark"],
   .assign "conditions" ["df", "song_df"],
   .assign "songplays_cols" [],
   .assign "songplays_table"
     ["df", "song_df", "conditions", "songplays_cols",
      "monotonically_increasing_id"],
   .writeOut "songplays" ["songplays_table", "output_data"]]

/-- Every name that is ever bound while `process_log_data` runs: the entry
environment plus every assignment target of the body. -/
def allLogNames : List String :=
  logEnv ++ process_log_data_body.filterMap (fun s =>
    match s with
    | PyStmt.assign t _ => some t
    | _ => none)

/-! ## Helper lemmas -/

theorem exists_enumFrom_of_mem {α : Type} {a : α} :
    ∀ (l : List α) (n : Nat), a ∈ l → ∃ i, (i, a) ∈ List.enumFrom n l := by
  intro l
  induction l with
  | nil => intro n h; cases h
  | cons b bs ih =>
    intro n h
    rcases List.mem_cons.mp h with rfl | h
    · exact ⟨n, by simp [List.enumFrom]⟩
    · obtain ⟨i, hi⟩ := ih (n + 1) h
      exact ⟨i, by simp [List.enumFrom]; right; exact hi⟩

theorem snd_mem_of_mem_enumFrom {α : Type} :
    ∀ (l : List α) (n : Nat) (p : Nat × α), p ∈ List.enumFrom n l → p.2 ∈ l := by
  intro l
  induction l with
  | nil => intro n p h; simp [List.enumFrom] at h
  | cons b bs ih =>
    intro n p h
    rw [List.enumFrom] at h
    rcases List.mem_cons.mp h with rfl | h
    · exact List.mem_cons.mpr (Or.inl rfl)
    · exact List.mem_cons.mpr (Or.inr (ih (n + 1) p h))

theorem epochDay_startTimeOf (t : Int) : epochDay (startTimeOf t) = epochDay t := by
  unfold epochDay startTimeOf
  rw [Int.fdiv_eq_ediv _ (by norm_num [msPerDay])]
  exact Int.mul_ediv_cancel_left _ (by norm_num [msPerDay])

theorem yearOf_startTimeOf (t : Int) : yearOf (startTimeOf t) = yearOf t := by
  unfold yearOf; rw [epochDay_startTimeOf]

theorem monthOf_startTimeOf (t : Int) : monthOf (startTimeOf t) = monthOf t := by
  unfold monthOf; rw [epochDay_startTimeOf]

/-- The first component of every pair produced by `leftJoin` is a row of the
left dataset. -/
theorem fst_mem_of_mem_leftJoin {df : List TimedLogRow} {song_df : List SongView}
    {q : TimedLogRow × Option SongView} (hq : q ∈ leftJoin df song_df) :
    q.1 ∈ df := by
  rw [leftJoin] at hq
  rcases List.mem_flatMap.mp hq with ⟨l, hl, hin⟩
  by_cases hc : (song_df.filter (fun s => songMatches l.row s)).isEmpty
  · simp only [hc, if_true] at hin
    rcases List.mem_singleton.mp hin with rfl
    exact hl
  · simp only [hc, if_false] at hin
    rcases List.mem_map.mp hin with ⟨s, _, rfl⟩
    exact hl

/-- Under a one-match-at-most hypothesis, `leftJoin` preserves the left
dataset's length. -/
theorem length_leftJoin (song_df : List SongView) :
    ∀ (df : List TimedLogRow),
      (∀ l ∈ df, (song_df.filter (fun s => songMatches l.row s)).length ≤ 1) →
      (leftJoin df song_df).length = df.length := by
  intro df
  induction df with
  | nil => intro _; rfl
  | cons a as ih =>
    intro h
    have hcons :
        leftJoin (a :: as) song_df =
          (if (song_df.filter (fun s => songMatches a.row s)).isEmpty then
             [(a, (none : Option SongView))]
           else
             (song_df.filter (fun s => songMatches a.row s)).map
               (fun s => (a, some s))) ++ leftJoin as song_df := by
      simp [leftJoin]
    rw [hcons, List.length_append,
        ih (fun l hl => h l (List.mem_cons_of_mem _ hl))]
    simp only [List.length_cons]
    have ha := h a (List.mem_cons_self _ _)
    by_cases hc : (song_df.filter (fun s => songMatches a.row s)).isEmpty = true
    · rw [if_pos hc]
      simp only [List.length_singleton]
      omega
    · have hne : (song_df.filter (fun s => songMatches a.row s)).length ≠ 0 := by
        intro h0
        exact hc (List.isEmpty_iff_length_eq_zero.mpr h0)
      rw [if_neg hc, List.length_map]
      omega

/-! ## Concrete example rows -/

/-- The spec's end-to-end song record: song_id S1, title Test Song,
artist_id A1, artist_name Test Artist, year 2000, duration 200.0. -/
def exampleSong : SongRecord :=
  { num_songs := none, artist_id := some "A1", artist_latitude := none,
    artist_longitude := none, artist_location := none,
    artist_name := some "Test Artist", song_id := some "S1",
    title := some "Test Song", duration := some 200, year := some 2000 }

/-- The spec's end-to-end log record (page NextSong, ts 1000000000000). -/
def exampleLog : LogRow :=
  { artist := some "Test Artist", auth := none, firstName := none,
    gender := none, itemInSession := none, lastName := none, length := none,
    level := some "free", location := some "X", method := none,
    page := some "NextSong", registration := none, sessionId := some "1",
    song := some "Test Song", status := none, ts := some 1000000000000,
    userAgent := some "Y", userId := some "1" }

/-- The published-view row for `exampleSong`. -/
def exampleView : SongView :=
  ⟨some "S1", some "Test Song", some "A1", some "Test Artist"⟩

/-- A second song record sharing (title, artist_name) with `exampleView`
but with a different song_id and artist_id. -/
def exampleView2 : SongView :=
  ⟨some "S2", some "Test Song", some "A2", some "Test Artist"⟩

/-- A song record with no artist_id, violating the non-nullable field of
`song_schema`. -/
def exampleBadSong : SongRecord :=
  { num_songs := none, artist_id := none, artist_latitude := none,
    artist_longitude := none, artist_location := none,
    artist_name := some "X", song_id := some "S9", title := some "T",
    duration := none, year := some 1999 }

/-- A NextSong log row whose user 1 is at level paid (otherwise like
`exampleLog`). -/
def exampleLogPaid : LogRow :=
  { exampleLog with level := some "paid", song := some "Other Song" }

/-- The songplays row produced by the intended dataflow on `exampleLog`
joined with `exampleView`. -/
def exampleSongplay : SongplayRow :=
  { start_time := some 999993600000, user_id := some "1",
    level := some "free", song_id := some "S1", artist_id := some "A1",
    session_id := some "1", location := some "X", user_agent := some "Y",
    year := some 2001, month := some 9 }

/-! ## Claims -/

/-- C10: exact-duplicate-row deduplication is idempotent — on a dataset
with no exact-duplicate rows, `dropDuplicates` is the identity, and hence
deduplicating twice equals deduplicating once. -/
theorem c10_dropDuplicates_idempotent {α : Type} [DecidableEq α]
    (l : List α) :
    (l.Nodup → dropDups l = l) ∧ dropDups (dropDups l) = dropDups l :=
  ⟨fun h => dropDups_eq_of_nodup h,
   dropDups_eq_of_nodup (dropDups_nodup l)⟩

/-- Witness for C10 at a concrete two-row dataset. -/
theorem c10_witness :
    dropDups [exampleLog, exampleLogPaid] = [exampleLog, exampleLogPaid] ∧
    dropDups (dropDups [exampleLog, exampleLogPaid]) =
      dropDups [exampleLog, exampleLogPaid] :=
  ⟨(c10_dropDuplicates_idempotent [exampleLog, exampleLogPaid]).1 (by decide),
   (c10_dropDuplicates_idempotent [exampleLog, exampleLogPaid]).2⟩

/-- C9: loading song data surfaces a record missing the non-nullable
`artist_id` or `year` as a malformed-input error, and a successfully loaded
song dataset never contains a row with null artist_id or null year. -/
theorem c9_song_schema_nonnullable (rs : List SongRecord) :
    (∀ out, loadSongData rs = Except.ok out →
      ∀ s ∈ out, s.artist_id ≠ none ∧ s.year ≠ none) ∧
    (∀ bad, loadSongData rs = Except.error bad →
      bad ∈ rs ∧ (bad.artist_id = none ∨ bad.year = none)) := by
  induction rs with
  | nil =>
    constructor
    · intro out hout s hs
      simp only [loadSongData] at hout
      cases hout
      cases hs
    · intro bad hbad
      simp only [loadSongData] at hbad
      cases hbad
  | cons r rs ih =>
    constructor
    · intro out hout s hs
      simp only [loadSongData] at hout
      split at hout
      case isTrue h =>
        cases hres : loadSongData rs with
        | ok l =>
          rw [hres] at hout
          simp only [Except.map] at hout
          cases hout
          rcases List.mem_cons.mp hs with rfl | hmem
          · exact ⟨Option.isSome_iff_ne_none.mp h.1,
                   Option.isSome_iff_ne_none.mp h.2⟩
          · exact ih.1 l hres s hmem
        | error e =>
          rw [hres] at hout
          simp [Except.map] at hout
      case isFalse h =>
        cases hout
    · intro bad hbad
      simp only [loadSongData] at hbad
      split at hbad
      case isTrue h =>
        cases hres : loadSongData rs with
        | ok l =>
          rw [hres] at hbad
          simp [Except.map] at hbad
        | error e =>
          rw [hres] at hbad
          simp only [Except.map] at hbad
          injection hbad with hbe
          subst hbe
          have := ih.2 e hres
          exact ⟨List.mem_cons_of_mem _ this.1, this.2⟩
      case isFalse h =>
        cases hbad
        refine ⟨List.mem_cons_self _ _, ?_⟩
        rcases not_and_or.mp h with h1 | h1
        · exact Or.inl (Option.not_isSome_iff_eq_none.mp h1)
        · exact Or.inr (Option.not_isSome_iff_eq_none.mp h1)

/-- Witness for C9: a good record loads with non-null artist_id and year;
a record missing artist_id is surfaced as the error. -/
theorem c9_witness :
    (exampleSong.artist_id ≠ none ∧ exampleSong.year ≠ none) ∧
    (exampleBadSong ∈ [exampleBadSong] ∧
      (exampleBadSong.artist_id = none ∨ exampleBadSong.year = none)) :=
  ⟨(c9_song_schema_nonnullable [exampleSong]).1 [exampleSong] rfl
      exampleSong (List.mem_cons_self _ _),
   (c9_song_schema_nonnullable [exampleBadSong]).2 exampleBadSong rfl⟩

/-- C4: the log schema declares `ts` as a 32-bit IntegerType, every value
of 2^31 or more (including the spec's example 1000000000000) is outside the
declared type's range, and lenient parsing yields null for such a value
rather than the stated value. -/
theorem c4_ts_integer_overflow :
    schemaField log_schema "ts" = some ⟨"ts", SparkType.IntegerType, false⟩ ∧
    (∀ v : Int, 2 ^ 31 ≤ v → ¬ int32Representable v) ∧
    (∀ v : Int, ¬ int32Representable v → parseInt32 v = none) ∧
    ¬ int32Representable 1000000000000 ∧
    parseInt32 1000000000000 = none := by
  refine ⟨by decide, ?_, ?_, by decide, by decide⟩
  · rintro v hv ⟨-, h2⟩
    omega
  · intro v hv
    rw [parseInt32, if_neg hv]

/-- Witness for C4 at v = 2^31 and the spec's example value. -/
theorem c4_witness :
    ¬ int32Representable (2 ^ 31) ∧ parseInt32 (2 ^ 31) = none :=
  ⟨c4_ts_integer_overflow.2.1 (2 ^ 31) le_rfl,
   c4_ts_integer_overflow.2.2.1 (2 ^ 31)
     (c4_ts_integer_overflow.2.1 (2 ^ 31) le_rfl)⟩

/-- C3: interpreting the statement sequence of `process_log_data` fails on
the unresolved name `user_cols` before any artifact is written (the binding
at line 116 is `users_cols`); moreover `to_date` and `day` are bound
nowhere in the function or module, and the `hour` statement at line 132 is
syntactically malformed — so the log pipeline never writes the users, time,
or songplays outputs. -/
theorem c3_log_pipeline_never_writes :
    runStmts logEnv [] process_log_data_body = ([], some "user_cols") ∧
    "users_cols" ∈ allLogNames ∧
    "user_cols" ∉ allLogNames ∧
    "to_date" ∉ allLogNames ∧
    "day" ∉ allLogNames ∧
    process_log_data_body[11]? = some PyStmt.malformed := by
  refine ⟨by decide, by decide, by decide, by decide, by decide, by decide⟩

/-- C5: the users table is exactly the projection of the filtered
(page = NextSong) log rows onto (user_id, first_name, last_name, gender,
level) with exact-duplicate rows removed; in particular two rows of the
same user differing in level are both retained. -/
theorem c5_users_projection (logs : List LogRow) :
    (∀ u : UserRow,
      u ∈ users_table logs ↔ ∃ r ∈ filteredLogs logs, usersProj r = u) ∧
    (users_table logs).Nodup ∧
    (∀ r1 r2 : LogRow, r1 ∈ filteredLogs logs → r2 ∈ filteredLogs logs →
      usersProj r1 ≠ usersProj r2 →
      usersProj r1 ∈ users_table logs ∧ usersProj r2 ∈ users_table logs) := by
  refine ⟨?_, dropDups_nodup _, ?_⟩
  · intro u
    rw [users_table, mem_dropDups]
    exact List.mem_map
  · intro r1 r2 h1 h2 _
    constructor
    · rw [users_table, mem_dropDups]
      exact List.mem_map_of_mem _ h1
    · rw [users_table, mem_dropDups]
      exact List.mem_map_of_mem _ h2

/-- Witness for C5: user 1 appears once at level free and once at level
paid, and both projected rows are in the users table. -/
theorem c5_witness :
    usersProj exampleLog ∈ users_table [exampleLog, exampleLogPaid] ∧
    usersProj exampleLogPaid ∈ users_table [exampleLog, exampleLogPaid] :=
  (c5_users_projection [exampleLog, exampleLogPaid]).2.2
    exampleLog exampleLogPaid (by decide) (by decide) (by decide)

/-- C7: the time table contains at most one row per distinct start_time
value — deduplication is by the start_time key alone. -/
theorem c7_time_table_unique_start_time (logs : List LogRow)
    (k : Option Int) :
    (time_table logs).countP (fun t => decide (t.start_time = k)) ≤ 1 := by
  rw [time_table]
  exact countP_dedupByKey TimeRow.start_time k _

/-- C8: every songplays output row's year and month columns equal the year
and month derived from that row's own start_time value. -/
theorem c8_year_month_match_start_time (logs : List LogRow)
    (song_df : List SongView) (p : Nat × SongplayRow)
    (hp : p ∈ songplays_table logs song_df) :
    p.2.year = p.2.start_time.map yearOf ∧
    p.2.month = p.2.start_time.map monthOf := by
  have hmem : p.2 ∈ songplaysRaw logs song_df := by
    rw [songplays_table, List.enum] at hp
    exact snd_mem_of_mem_enumFrom _ 0 p hp
  rcases List.mem_map.mp hmem with ⟨q, hq, heq⟩
  rw [← heq]
  obtain ⟨q1, q2⟩ := q
  have hq1 : (q1, q2).1 ∈ timedLogs logs := fst_mem_of_mem_leftJoin hq
  rcases List.mem_map.mp hq1 with ⟨r, _, hqr⟩
  subst hqr
  cases hts : r.ts with
  | none =>
    constructor <;> simp [songplaysProj, withTimeColumns, hts]
  | some t =>
    constructor <;>
      simp [songplaysProj, withTimeColumns, hts, yearOf_startTimeOf,
        monthOf_startTimeOf]

/-- Witness for C8 at the end-to-end example row. -/
theorem c8_witness :
    exampleSongplay.year = exampleSongplay.start_time.map yearOf ∧
    exampleSongplay.month = exampleSongplay.start_time.map monthOf :=
  c8_year_month_match_start_time [exampleLog] [exampleView]
    (0, exampleSongplay) (by decide)

/-- C6: a filtered log row whose (song, artist) matches no song record
still yields a songplays row — with null song_id and null artist_id — and
is not dropped. -/
theorem c6_unmatched_row_kept_with_nulls (logs : List LogRow)
    (song_df : List SongView) (l : LogRow)
    (hl : l ∈ filteredLogs logs)
    (hnone : song_df.filter (fun s => songMatches l s) = []) :
    (∃ i, (i, songplaysProj (withTimeColumns l, none)) ∈
        songplays_table logs song_df) ∧
    (songplaysProj (withTimeColumns l, none)).song_id = none ∧
    (songplaysProj (withTimeColumns l, none)).artist_id = none := by
  refine ⟨?_, rfl, rfl⟩
  have hmem :
      songplaysProj (withTimeColumns l, none) ∈ songplaysRaw logs song_df := by
    rw [songplaysRaw]
    apply List.mem_map_of_mem
    rw [leftJoin]
    apply List.mem_flatMap.mpr
    refine ⟨withTimeColumns l, List.mem_map_of_mem _ hl, ?_⟩
    have hrow : (withTimeColumns l).row = l := rfl
    rw [hrow, hnone]
    exact List.mem_singleton.mpr rfl
  rw [songplays_table, List.enum]
  exact exists_enumFrom_of_mem _ 0 hmem

/-- Witness for C6: `exampleLogPaid` plays Other Song, which matches no
published song record, yet its null-keyed songplays row is in the output. -/
theorem c6_witness :
    (∃ i, (i, songplaysProj (withTimeColumns exampleLogPaid, none)) ∈
        songplays_table [exampleLogPaid] [exampleView]) ∧
    (songplaysProj (withTimeColumns exampleLogPaid, none)).song_id = none ∧
    (songplaysProj (withTimeColumns exampleLogPaid, none)).artist_id = none :=
  c6_unmatched_row_kept_with_nulls [exampleLogPaid] [exampleView]
    exampleLogPaid (by decide) (by decide)

/-- C1 fails as stated: with two distinct published song records sharing
(title, artist_name), the single filtered log row appears twice in the
songplays output, so the left join does not preserve left-side cardinality. -/
theorem c1_counterexample :
    (filteredLogs [exampleLog]).length = 1 ∧
    (songplaysRaw [exampleLog] [exampleView, exampleView2]).length = 2 := by
  refine ⟨by decide, by decide⟩

/-- C1 (amended): every filtered log row appears exactly once in the
songplays output provided it matches at most one published song record; in
particular unmatched rows are kept.  (A row matching k distinct song
records appears k times, as the counterexample shows.) -/
theorem c1_left_join_cardinality (logs : List LogRow)
    (song_df : List SongView)
    (h : ∀ l ∈ filteredLogs logs,
      (song_df.filter (fun s => songMatches l s)).length ≤ 1) :
    (songplaysRaw logs song_df).length = (filteredLogs logs).length := by
  rw [songplaysRaw, List.length_map]
  have htrans : ∀ l ∈ timedLogs logs,
      (song_df.filter (fun s => songMatches l.row s)).length ≤ 1 := by
    intro l hl
    rcases List.mem_map.mp hl with ⟨r, hr, rfl⟩
    exact h r hr
  rw [length_leftJoin song_df (timedLogs logs) htrans, timedLogs,
      List.length_map]

/-- Witness for C1 (amended): one matched and one unmatched filtered row,
each matching at most one song record, give exactly two songplays rows. -/
theorem c1_witness :
    (songplaysRaw [exampleLog, exampleLogPaid] [exampleView]).length =
      (filteredLogs [exampleLog, exampleLogPaid]).length :=
  c1_left_join_cardinality [exampleLog, exampleLogPaid] [exampleView]
    (by decide)

/-- C2: the code cannot produce the claimed end-to-end songplays row: the
spec's ts value 1000000000000 is not representable in the declared 32-bit
`ts` field and parses to null, and the statement sequence of
`process_log_data` fails on `user_cols` before writing anything.  The
intended dataflow (with the defects repaired as evidently meant) does
yield exactly the claimed row with song_id S1, artist_id A1, a non-null
start_time, and songplay_id 0. -/
theorem c2_end_to_end_code_bug :
    parseInt32 1000000000000 = none ∧
    ¬ int32Representable 1000000000000 ∧
    runStmts logEnv [] process_log_data_body = ([], some "user_cols") ∧
    process_song_data [exampleSong] =
      Except.ok
        ([⟨some "S1", some "Test Song", some "A1", some 2000, some 200⟩],
         [⟨some "A1", some "Test Artist", none, none, none⟩],
         [exampleView]) ∧
    songplays_table [exampleLog] [exampleView] = [(0, exampleSongplay)] ∧
    exampleSongplay.song_id = some "S1" ∧
    exampleSongplay.artist_id = some "A1" ∧
    exampleSongplay.start_time ≠ none := by
  refine ⟨by decide, by decide, by decide, rfl, by decide,
    rfl, rfl, by decide⟩

end ETL
